import Mathlib

/-!
Shallow embedding of the `stardust` platform layer of this Rust fork:
`src/library/std/src/sys/stardust/{fs.rs, condvar.rs, time.rs, mod.rs}`.

Pure fragments of the Rust code are translated into Lean functions;
driver calls (the external FatFs-style block filesystem driver and the
pthread primitives, which are not part of this repository's `src/`) are
modelled as explicit oracle parameters, with any assumption about their
behaviour documented as `Modelled from the spec:` on the definition.
Machine integers are `Nat`/`Int` with explicit `% 2 ^ w` where the source
wraps, and casts spelled out.
-/

namespace Stardust

/-- The `io::ErrorKind` values used by this layer. -/
inductive ErrorKind where
  | notFound
  | invalidInput
  | permissionDenied
  | interrupted
  | timedOut
  | writeZero
  | other
  deriving DecidableEq, Repr

/-- An `io::Error` as this layer builds them: a kind plus a message. -/
structure Error where
  kind : ErrorKind
  msg : String
  deriving DecidableEq, Repr

/-- Embeds `get_error` from `fs.rs` (lines 15-48): translates a driver
result code (`u32`, here `Nat`; every value `≥ 20` hits the default arm,
so the `u32` bound is immaterial) into `Ok(())` for `0` and a fixed
`io::Error` otherwise. -/
def get_error (result : Nat) : Except Error Unit :=
  match result with
  | 0 => .ok ()
  | 1 => .error ⟨.other, "A hard error occurred in the low level disk I/O layer"⟩
  | 2 => .error ⟨.other, "Assertion failed"⟩
  | 3 => .error ⟨.other, "The physical drive cannot work"⟩
  | 4 => .error ⟨.notFound, "Could not find the file"⟩
  | 5 => .error ⟨.notFound, "Could not find the path"⟩
  | 6 => .error ⟨.invalidInput, "The path name format is invalid"⟩
  | 7 => .error ⟨.permissionDenied, "Access denied due to prohibited access or directory full"⟩
  | 8 => .error ⟨.permissionDenied, "Access denied due to prohibited access"⟩
  | 9 => .error ⟨.invalidInput, "The file/directory object is invalid"⟩
  | 10 => .error ⟨.other, "The physical drive is write protected"⟩
  | 11 => .error ⟨.other, "The logical drive number is invalid"⟩
  | 12 => .error ⟨.other, "The volume has no work area"⟩
  | 13 => .error ⟨.other, "There is no valid FAT volume"⟩
  | 14 => .error ⟨.interrupted, "The f_mkfs() aborted due to any problem"⟩
  | 15 => .error ⟨.timedOut, "Could not get a grant to access the volume within defined period"⟩
  | 16 => .error ⟨.permissionDenied, "The operation is rejected according to the file sharing policy"⟩
  | 17 => .error ⟨.other, "LFN working buffer could not be allocated"⟩
  | 18 => .error ⟨.other, "Number of open files > FF_FS_LOCK"⟩
  | 19 => .error ⟨.invalidInput, "Given parameter is invalid"⟩
  | _ + 20 => .error ⟨.other, "Unknown error"⟩

/-- The kind produced by `get_error`, `none` meaning success. -/
def get_error_kind (result : Nat) : Option ErrorKind :=
  match get_error result with
  | .ok _ => none
  | .error e => some e.kind

/-- Embeds `decode_error_kind` from `mod.rs` (lines 69-79): maps a raw
os error number (`i32`, here `Int`) to an `io::ErrorKind`. -/
def decode_error_kind (errno : Int) : ErrorKind :=
  if errno = 0 then .writeZero
  else if errno = 4 ∨ errno = 5 then .notFound
  else if errno = 6 ∨ errno = 9 ∨ errno = 11 ∨ errno = 19 then .invalidInput
  else if errno = 7 ∨ errno = 8 ∨ errno = 10 then .permissionDenied
  else if errno = 14 then .interrupted
  else if errno = 15 then .timedOut
  else .other

/-- Claim-side table for the fs-layer translation `get_error`, as amended:
missing file/path (4, 5) to NotFound; malformed-path / invalid-object /
invalid-parameter (6, 9, 19) to InvalidInput; access and sharing violations
(7, 8, 16) to PermissionDenied; the aborted-operation code (14) to
Interrupted; the volume-grant-timeout code (15) to TimedOut; zero is
success; all remaining codes, including write-protected media (10), to
Other. -/
def amendedFsErrorTable (result : Nat) : Option ErrorKind :=
  if result = 0 then none
  else if result = 4 ∨ result = 5 then some .notFound
  else if result = 6 ∨ result = 9 ∨ result = 19 then some .invalidInput
  else if result = 7 ∨ result = 8 ∨ result = 16 then some .permissionDenied
  else if result = 14 then some .interrupted
  else if result = 15 then some .timedOut
  else some .other

/-- Claim-side table for the errno decoder `decode_error_kind`, as
amended: same taxonomy, except that the errno decoder maps
write-protected media (10) and the invalid-drive-number code (11) to
PermissionDenied resp. InvalidInput, maps the sharing-violation code 16
to Other, and maps errno 0 to WriteZero. -/
def amendedErrnoKindTable (errno : Int) : ErrorKind :=
  if errno = 0 then .writeZero
  else if errno = 4 ∨ errno = 5 then .notFound
  else if errno = 6 ∨ errno = 9 ∨ errno = 11 ∨ errno = 19 then .invalidInput
  else if errno = 7 ∨ errno = 8 ∨ errno = 10 then .permissionDenied
  else if errno = 14 then .interrupted
  else if errno = 15 then .timedOut
  else .other

/-! ## OpenOptions validation (`fs.rs` lines 81-90, 205-285) -/

/-- The `OpenOptions` struct from `fs.rs` (lines 81-90). -/
structure OpenOptions where
  read : Bool
  write : Bool
  append : Bool
  truncate : Bool
  create : Bool
  create_new : Bool
  deriving DecidableEq, Repr

/-- Modelled from the spec: the driver mode flags `FA_READ`, `FA_WRITE`,
`FA_CREATE_ALWAYS`, `FA_SEEKEND`, `FA_CREATE_NEW`, `FA_OPEN_APPEND` are
constants of the platform `libc` crate, which is repository code not under
`src/`; the values follow the FatFs flag convention the spec describes
(distinct access/creation bits). No claim depends on their values. -/
def FA_READ : Nat := 0x01
def FA_WRITE : Nat := 0x02
def FA_CREATE_NEW : Nat := 0x04
def FA_CREATE_ALWAYS : Nat := 0x08
def FA_SEEKEND : Nat := 0x20
def FA_OPEN_APPEND : Nat := 0x30

/-- Modelled from the spec: `EINVAL` is defined by the platform `libc`
crate, which is repository code not under `src/`. Per §7 of the spec an
illegal open-option combination surfaces as InvalidInput, and
`decode_error_kind` maps the invalid-parameter code 19 to InvalidInput,
so the crate's `EINVAL` is taken to be 19. -/
def EINVAL : Int := 19

/-- Embeds `Error::from_raw_os_error(errno)`: an error whose kind is decoded by
`decode_error_kind` (`mod.rs`); the message is not modelled. -/
def from_raw_os_error (errno : Int) : Error :=
  ⟨decode_error_kind errno, "os error"⟩

/-- Embeds `OpenOptions::get_mode` from `fs.rs` (lines 236-268): flag
validation followed by derivation of the driver mode byte. -/
def OpenOptions.get_mode (o : OpenOptions) : Except Error Nat := do
  match o.write, o.append with
  | true, false => pure ()
  | false, false =>
      if o.truncate || o.create || o.create_new then
        throw (from_raw_os_error EINVAL)
      else
        pure ()
  | _, true =>
      if o.truncate && !o.create_new then
        throw (from_raw_os_error EINVAL)
      else
        pure ()
  let creation_mode : Nat :=
    match o.create, o.append, o.create_new with
    | false, false, false => 0
    | true, false, false => FA_CREATE_ALWAYS
    | false, true, false => FA_SEEKEND
    | true, true, false => FA_CREATE_ALWAYS ||| FA_SEEKEND
    | _, false, true => FA_CREATE_NEW
    | _, true, true => FA_OPEN_APPEND
  let access_mode : Nat :=
    match o.read, o.write with
    | false, false => 0
    | true, false => FA_READ
    | false, true => FA_WRITE
    | true, true => FA_READ ||| FA_WRITE
  return creation_mode ||| access_mode

/-- Embeds `File::copen` from `fs.rs` (lines 281-285) with the driver as
an oracle: `f_open` is a function from the mode byte to a result code.
Returns the wrapped result together with the number of driver open calls
issued (the `?` on `opts.get_mode()` returns before `f_open` is called). -/
def copen (o : OpenOptions) (f_open : Nat → Nat) : Except Error Unit × Nat :=
  match o.get_mode with
  | .error e => (.error e, 0)
  | .ok mode => (get_error (f_open mode), 1)

/-- The illegal combinations named by the claim: write and append both
false with any of truncate/create/create_new set, or append with truncate
set and create_new not set. -/
def illegalOptions (o : OpenOptions) : Bool :=
  (!o.write && !o.append && (o.truncate || o.create || o.create_new)) ||
    (o.append && o.truncate && !o.create_new)

/-! ## Date/time decoding (`fs.rs` lines 552-578) -/

/-- Cast `x as i32` on a `u64` value `x` (here a `Nat` already reduced
`% 2 ^ 64`): keep the low 32 bits, reinterpret as two's complement. -/
def u64AsI32 (x : Nat) : Int :=
  let low : Nat := x % 2 ^ 32
  if low < 2 ^ 31 then (low : Int) else (low : Int) - 2 ^ 32

/-- Embeds `get_system_time` from `fs.rs` (lines 552-578), returning the
elapsed-seconds value stored in the resulting `SystemTime`. The inputs
are the packed `u16` date and time (masked to 16 bits). Faithful to the
source, including the precedence of `(date >> 5) & 15 + 1`, which parses
as `(date >> 5) & 16`, and `month.wrapping_sub(2)` on `u64`. The `u64`
subtraction `- 719499` cannot underflow because `year ≥ 1979` gives
`year * 365 ≥ 722335`, and no other `u64` operation can wrap, so plain
`Nat` arithmetic agrees with the source elsewhere. -/
def get_system_time (date0 time0 : Nat) : Nat :=
  let date := date0 % 2 ^ 16
  let time := time0 % 2 ^ 16
  let year0 := (date >>> 9) + 1980
  let month0 := (date >>> 5) &&& (15 + 1)
  let day := date &&& 31
  let hour := time >>> 11
  let minute := (time >>> 5) &&& 63
  let second := (time &&& 31) >>> 1
  let month1 := (month0 + (2 ^ 64 - 2)) % 2 ^ 64
  let pair := if u64AsI32 month1 < 0 then ((month1 + 12) % 2 ^ 64, year0 - 1)
              else (month1, year0)
  let month := pair.1
  let year := pair.2
  ((((year / 4 - year / 100 + year / 400 + 367 * month / 12 + day) + year * 365 - 719499)
        * 24 + hour)
      * 60 + minute)
    * 60 + second

/-- Modelled from the spec: the intended decode per §4.2 — "month in the
next 4 bits" above the low 5 day bits — i.e. `(date >> 5) & 15`, the
month field itself, in place of the source's `(date >> 5) & (15 + 1)`;
identical to `get_system_time` everywhere else. -/
def get_system_time_spec (date0 time0 : Nat) : Nat :=
  let date := date0 % 2 ^ 16
  let time := time0 % 2 ^ 16
  let year0 := (date >>> 9) + 1980
  let month0 := (date >>> 5) &&& 15
  let day := date &&& 31
  let hour := time >>> 11
  let minute := (time >>> 5) &&& 63
  let second := (time &&& 31) >>> 1
  let month1 := (month0 + (2 ^ 64 - 2)) % 2 ^ 64
  let pair := if u64AsI32 month1 < 0 then ((month1 + 12) % 2 ^ 64, year0 - 1)
              else (month1, year0)
  let month := pair.1
  let year := pair.2
  ((((year / 4 - year / 100 + year / 400 + 367 * month / 12 + day) + year * 365 - 719499)
        * 24 + hour)
      * 60 + minute)
    * 60 + second

/-! ## File operations: truncate and seek (`fs.rs` lines 305-313, 365-399) -/

/-- The driver calls a file operation can issue, for call-trace claims. -/
inductive DriverCall where
  | truncateAtCurrentPosition
  | lseek (position : Nat)
  deriving DecidableEq, Repr

/-- Embeds `File::truncate` from `fs.rs` (lines 305-313): the `_size`
argument is unused; under the write lock the single driver call
`f_truncate(file)` — truncate at the current position — is issued and its
result code mapped through `get_error`. The oracle `f_truncate` is the
driver result code. Returns the wrapped result and the driver call
issued. -/
def File.truncate ( _size : Nat) (f_truncate : Nat) : Except Error Unit × DriverCall :=
  (get_error f_truncate, .truncateAtCurrentPosition)

/-- The std `SeekFrom` type: absolute, end-relative or current-relative. -/
inductive SeekFrom where
  | start (p : Nat)
  | fromEnd (p : Int)
  | current (p : Int)

/-- Embeds the position computation of `File::seek` from `fs.rs`
(lines 366-388): `size` is the stat-reported size, `current` the file
pointer, both `u64`. For a positive offset the source adds unchecked
(modelled `% 2 ^ 64`); for `p ≤ 0` it uses `checked_sub(p.abs() as u64)`
and fails with the "Cannot seek beyond start of file" error on
underflow. `p.abs() as u64` agrees with `Int.natAbs` even at `i64::MIN`. -/
def seekPosition (pos : SeekFrom) (size current : Nat) : Except Error Nat :=
  match pos with
  | .start p => .ok p
  | .fromEnd p =>
      if 0 < p then .ok ((size + p.toNat) % 2 ^ 64)
      else if p.natAbs ≤ size then .ok (size - p.natAbs)
      else .error ⟨.other, "Cannot seek beyond start of file"⟩
  | .current p =>
      if 0 < p then .ok ((current + p.toNat) % 2 ^ 64)
      else if p.natAbs ≤ current then .ok (current - p.natAbs)
      else .error ⟨.other, "Cannot seek beyond start of file"⟩

/-- Embeds `File::seek` (`fs.rs` lines 365-399): compute the target
position, issue `f_lseek`, and return the file pointer afterwards.
Modelled from the spec: the driver's seek call is absolute and on success
sets the file pointer to the requested position (the driver is not under
`src/`); `f_lseek` is the oracle result code. -/
def File.seek (pos : SeekFrom) (size current : Nat) (f_lseek : Nat) : Except Error Nat :=
  match seekPosition pos size current with
  | .error e => .error e
  | .ok position =>
      match get_error f_lseek with
      | .error e => .error e
      | .ok _ => .ok position

/-! ## Directory enumeration (`fs.rs` lines 168-181) -/

/-- The fields of a raw `FILINFO` record this layer inspects: the first
byte of the name (sentinel detection) and the record itself abstracted
as its name bytes. -/
structure Filinfo where
  fname : List Nat
  deriving DecidableEq, Repr

/-- First byte of `fname` (the zeroed record gives 0). -/
def Filinfo.fname0 (i : Filinfo) : Nat :=
  match i.fname with
  | [] => 0
  | b :: _ => b

/-- Embeds `<ReadDir as Iterator>::next` from `fs.rs` (lines 171-180):
`f_readdir` fills `filinfo` and returns a result code; `get_error(..).ok()?`
turns any nonzero code into `None`, and a leading NUL name is the
end-of-directory sentinel. The oracle is the pair (result code, record
filled in by the driver). -/
def readDirNext (f_readdir : Nat) (filinfo : Filinfo) : Option (Except Error Filinfo) :=
  match get_error f_readdir with
  | .error _ => none
  | .ok _ =>
      if filinfo.fname0 = 0 then none
      else some (.ok filinfo)

/-! ## Recursive removal (`fs.rs` lines 483-497) -/

/-- A path is its component list (the layer's `CString` paths, per join
via `DirEntry::path`). -/
abbrev FsPath := List String

/-- A directory entry as `remove_dir_all` observes it through
`entry.metadata().file_type()`: a file, or a directory with its own
entries (the list a `readdir` of it would yield, in order). -/
inductive FsEntry where
  | file (name : String)
  | dir (name : String) (entries : List FsEntry)

/-- The enumeration loop of `remove_dir_all` (`fs.rs` lines 485-494) over
the entries of the directory at `p`: a file entry is deleted directly
(`remove`, i.e. the driver delete call, whose outcome the oracle `del`
gives per path); a directory entry is recursed into — its entries first,
then the subdirectory itself, mirroring the recursive `remove_dir_all`
call. Returns the propagated result and the ordered trace of driver
delete calls issued. -/
def removeEntries (del : FsPath → Except Error Unit) (p : FsPath) :
    List FsEntry → Except Error Unit × List FsPath
  | [] => (.ok (), [])
  | .file n :: rest =>
      match del (p ++ [n]) with
      | .error e => (.error e, [p ++ [n]])
      | .ok _ =>
          match removeEntries del p rest with
          | (r, tr) => (r, (p ++ [n]) :: tr)
  | .dir n sub :: rest =>
      match removeEntries del (p ++ [n]) sub with
      | (.error e, tr) => (.error e, tr)
      | (.ok _, tr) =>
          match del (p ++ [n]) with
          | .error e => (.error e, tr ++ [p ++ [n]])
          | .ok _ =>
              match removeEntries del p rest with
              | (r, tr2) => (r, (tr ++ [p ++ [n]]) ++ tr2)

/-- Embeds `remove_dir_all` from `fs.rs` (lines 483-497): enumerate and
delete the entries, then — only if the whole loop succeeded — issue the
driver delete call for the root directory itself. -/
def remove_dir_all (del : FsPath → Except Error Unit) (p : FsPath)
    (entries : List FsEntry) : Except Error Unit × List FsPath :=
  match removeEntries del p entries with
  | (.error e, tr) => (.error e, tr)
  | (.ok _, tr) =>
      match del p with
      | .error e => (.error e, tr ++ [p])
      | .ok _ => (.ok (), tr ++ [p])

/-! ## Shared handle lifetime (`fs.rs` lines 50-58, 401-403, 411-415) -/

/-- Modelled from the spec: the state of one underlying open-file record
(`Arc<RwLock<FileInner>>`). `Arc` lives in the `alloc` crate of this
repository, outside `src/`; per the spec, the record is "destroyed
(driver close invoked) exactly once, when the last owning reference is
dropped". `refcount` is the number of live logical files sharing the
record, `closeCalls` the number of driver `f_close` calls issued, and
`dupDriverCalls` the number of driver calls issued by `duplicate` —
`File::duplicate` (`fs.rs` lines 401-403) only clones the shared
reference and the stored path, so it adds 0. -/
structure HandleState where
  refcount : Nat
  closeCalls : Nat
  dupDriverCalls : Nat
  deriving DecidableEq, Repr

/-- The state right after a successful `copen`: one logical file. -/
def openedHandle : HandleState := ⟨1, 0, 0⟩

/-- An event in the life of the logical files sharing one record. -/
inductive HandleOp where
  | dup
  | drop
  deriving DecidableEq, Repr

/-- One event: `dup` is `File::duplicate` (clones the `Arc`, issues no
driver call); `drop` drops one logical file — when it is the last owner
the `FileInner` destructor (`fs.rs` lines 411-415) runs and issues the
single driver `f_close` call. -/
def handleStep (s : HandleState) : HandleOp → HandleState
  | .dup => ⟨s.refcount + 1, s.closeCalls, s.dupDriverCalls + 0⟩
  | .drop =>
      if s.refcount = 1 then ⟨0, s.closeCalls + 1, s.dupDriverCalls⟩
      else ⟨s.refcount - 1, s.closeCalls, s.dupDriverCalls⟩

/-- Run a sequence of events. -/
def runHandleOps (s : HandleState) : List HandleOp → HandleState
  | [] => s
  | op :: rest => runHandleOps (handleStep s op) rest

/-- A trace is well formed for a given live count when no logical file is
used after the last one is dropped: each event needs a live reference. -/
def okTrace : Nat → List HandleOp → Bool
  | _, [] => true
  | 0, _ :: _ => false
  | r + 1, .dup :: rest => okTrace (r + 2) rest
  | r + 1, .drop :: rest => okTrace r rest

/-- Number of `dup` events. -/
def countDups : List HandleOp → Nat
  | [] => 0
  | .dup :: rest => countDups rest + 1
  | .drop :: rest => countDups rest

/-- Number of `drop` events. -/
def countDrops : List HandleOp → Nat
  | [] => 0
  | .dup :: rest => countDrops rest
  | .drop :: rest => countDrops rest + 1

/-! ## Time and timed condition waits (`time.rs`, `condvar.rs`) -/

/-- The `core::time::Duration` type: whole seconds (`u64`) plus subsecond
nanoseconds (`u32`, invariantly `< 10 ^ 9`, carried as a hypothesis where
it matters). -/
structure Duration where
  secs : Nat
  nanos : Nat
  deriving DecidableEq, Repr

/-- Total nanoseconds, the order-embedding for well-formed durations. -/
def Duration.toNanos (d : Duration) : Nat :=
  d.secs * 1000000000 + d.nanos

/-- The strict order on `Duration` (derived lexicographic `Ord`, as Rust
compares durations). -/
def durLt (a b : Duration) : Bool :=
  a.secs < b.secs || (a.secs = b.secs && a.nanos < b.nanos)

/-- The `libc::timeval` pair as the platform clock returns it. -/
structure Timeval where
  tv_sec : Int
  tv_usec : Int
  deriving DecidableEq, Repr

/-- The `libc::timespec` pair (`time_t` seconds, nanoseconds). -/
structure Timespec where
  tv_sec : Int
  tv_nsec : Int
  deriving DecidableEq, Repr

/-- The value `i64::MAX`, the maximum of `libc::time_t`. -/
def time_t_MAX : Int := 2 ^ 63 - 1

/-- Embeds `TIMESPEC_MAX` from `condvar.rs` (lines 14-15). -/
def TIMESPEC_MAX : Timespec := ⟨time_t_MAX, 1000000000 - 1⟩

/-- Embeds `saturating_cast_to_time_t` from `condvar.rs` (lines 17-19). -/
def saturating_cast_to_time_t (value : Nat) : Int :=
  if time_t_MAX < (value : Int) then time_t_MAX else (value : Int)

/-- The operation `i64::checked_add` on values already in `i64` range: the exact sum if
it stays in range, else `none`. -/
def checkedAddI64 (a b : Int) : Option Int :=
  if -(2 ^ 63) ≤ a + b ∧ a + b ≤ 2 ^ 63 - 1 then some (a + b) else none

/-- The 1000-year ceiling `max_dur` from `condvar.rs` (line 55):
`Duration::from_secs(1000 * 365 * 86400)`. -/
def max_dur : Duration := ⟨1000 * 365 * 86400, 0⟩

/-- The clamping step of `wait_timeout` (`condvar.rs` lines 57-71). -/
def clampDur (dur : Duration) : Duration :=
  if durLt max_dur dur then max_dur else dur

/-- The absolute-deadline computation of `wait_timeout` (`condvar.rs`
lines 76-91), after clamping: one wall-clock read `sys_now`, nanosecond
carry into the seconds field, `checked_add` chain saturating to
`TIMESPEC_MAX`. The `c_long` intermediates stay in range under the
clock-validity hypotheses carried by the theorems, so plain `Int`
arithmetic is faithful; `nsec0` is nonnegative there, so `Int`
division/modulo agree with the source's truncating `/` and `%`. -/
def computeTimeout (dur : Duration) (sys_now : Timeval) : Timespec :=
  let nsec0 : Int := (dur.nanos : Int) + sys_now.tv_usec * 1000
  let extra : Int := nsec0 / 1000000000
  let nsec : Int := nsec0 % 1000000000
  let seconds : Int := saturating_cast_to_time_t dur.secs
  match (checkedAddI64 sys_now.tv_sec extra).bind (fun s => checkedAddI64 s seconds) with
  | some s => ⟨s, nsec⟩
  | none => TIMESPEC_MAX

/-- What the underlying `pthread_cond_timedwait` call did: its result
code `r` (0, `ETIMEDOUT`, or anything else — a signal or a spurious
wakeup), and the monotonic time that elapsed across it
(`stable_now.elapsed()`, the difference of the two `Instant` reads in
`time.rs`). -/
structure WaitOutcome where
  r : Int
  stableElapsed : Duration

/-- Embeds `Condvar::wait_timeout` from `condvar.rs` (lines 51-100):
clamp the duration to the 1000-year ceiling, compute the absolute
deadline from one wall-clock read, wait, then ignore the primitive's own
result and report not-timed-out exactly when the monotonic elapsed time
is below the (clamped) duration. Returns the deadline handed to the
primitive together with the returned `bool`. -/
def wait_timeout (dur0 : Duration) (sys_now : Timeval) (w : WaitOutcome) :
    Timespec × Bool :=
  let dur := clampDur dur0
  let timeout := computeTimeout dur sys_now
  (timeout, durLt w.stableElapsed dur)

/-! ## Helper lemmas -/

/-- The translation `get_error` succeeds exactly on result code 0. -/
theorem get_error_ok_iff (r : Nat) : get_error r = .ok () ↔ r = 0 := by
  constructor
  · intro h
    by_contra hne
    rcases Nat.lt_or_ge r 20 with hl | hl
    · interval_cases r <;> simp_all [get_error]
    · obtain ⟨n, rfl⟩ : ∃ n, r = n + 20 := ⟨r - 20, by omega⟩
      simp [get_error] at h
  · rintro rfl
    rfl

/-! ## Claim theorems -/

/-- Claim C5: the claim as frozen asserts one fixed taxonomy for both
translation functions, with write-protected media mapping to
PermissionDenied; but the fs-layer translation `get_error` maps the
write-protected-media code 10 to Other, and the errno decoder
`decode_error_kind` maps the sharing-violation code 16 to Other. -/
theorem error_taxonomy_counterexample :
    get_error_kind 10 = some ErrorKind.other ∧
      ErrorKind.other ≠ ErrorKind.permissionDenied ∧
      decode_error_kind 16 = ErrorKind.other ∧
      decode_error_kind 16 ≠ ErrorKind.permissionDenied := by
  refine ⟨rfl, by decide, by decide, by decide⟩

/-- Claim C5 (amended): zero is success; missing file/path codes map to
NotFound, malformed-path/invalid-object/invalid-parameter codes to
InvalidInput, the aborted-operation code to Interrupted, the
volume-grant-timeout code to TimedOut, and all remaining codes to Other —
except that the access/sharing-violation and write-protected-media codes
split between the two translations: `get_error` maps 7, 8, 16 to
PermissionDenied and 10 to Other, while `decode_error_kind` maps 7, 8, 10
to PermissionDenied, 16 to Other, 11 to InvalidInput, and errno 0 to
WriteZero. -/
theorem error_taxonomy_amended :
    (∀ result : Nat, get_error_kind result = amendedFsErrorTable result) ∧
      (∀ errno : Int, decode_error_kind errno = amendedErrnoKindTable errno) := by
  constructor
  · intro result
    rcases Nat.lt_or_ge result 20 with hl | hl
    · interval_cases result <;> rfl
    · obtain ⟨n, rfl⟩ : ∃ n, result = n + 20 := ⟨result - 20, by omega⟩
      rfl
  · intro errno
    rfl

/-- Claim C10: `File::truncate` ignores its size argument entirely — for
any two requested sizes the very same driver truncate-at-current-position
call is issued and the same result returned, so the outcome can depend
only on the current file position. -/
theorem truncate_ignores_size :
    ∀ (s1 s2 : Nat) (f_truncate : Nat),
      File.truncate s1 f_truncate = File.truncate s2 f_truncate := by
  intro s1 s2 r
  rfl

/-- Claim C9: the directory cursor never yields an error item — any
nonzero driver result code from the read-next-entry call makes `next`
yield `none`, exactly as the empty-name sentinel does, so a
mid-enumeration driver failure is indistinguishable from the end of the
directory. -/
theorem readdir_error_indistinguishable :
    ∀ (r : Nat) (info : Filinfo),
      (∀ e, readDirNext r info ≠ some (.error e)) ∧
        (r ≠ 0 → readDirNext r info = readDirNext 0 ⟨[]⟩) := by
  intro r info
  constructor
  · intro e h
    unfold readDirNext at h
    rcases hg : get_error r with e' | u <;> rw [hg] at h
    · exact Option.noConfusion h
    · by_cases h0 : info.fname0 = 0 <;> simp [h0] at h
  · intro hr
    rcases hg : get_error r with e' | u
    · show readDirNext r info = none
      unfold readDirNext
      rw [hg]
    · exact absurd ((get_error_ok_iff r).mp (by rw [hg])) hr

/-- Claim C9 witness: driver failure code 3 with a non-sentinel record in
the buffer still yields `none`. -/
theorem readdir_error_indistinguishable_witness :
    (3 : Nat) ≠ 0 ∧ readDirNext 3 ⟨[65, 0]⟩ = readDirNext 0 ⟨[]⟩ :=
  ⟨by decide, (readdir_error_indistinguishable 3 ⟨[65, 0]⟩).2 (by decide)⟩

/-- Claim C3: golden-value evaluation at packed date `0x4A21`, packed
time `0x0000`. The source's `(date >> 5) & 15 + 1` parses as
`(date >> 5) & 16`, so the code uses month 16 (→ 1522713600, which is
2018-04-03) instead of the month-field value 1 the spec's bit layout
gives (→ 1483228800, which is 2017-01-01 00:00:00). -/
theorem date_decode_golden :
    get_system_time 0x4A21 0 = 1522713600 ∧
      get_system_time_spec 0x4A21 0 = 1483228800 ∧
      get_system_time 0x4A21 0 ≠ get_system_time_spec 0x4A21 0 := by
  refine ⟨by decide, by decide, by decide⟩

/-- Claim C1: for every `OpenOptions` combination, validation happens
before any driver call — an illegal combination (write and append both
false with any of truncate/create/create_new set, or append with truncate
set and create_new clear) makes `copen` fail with an InvalidInput error
with zero driver open calls issued, and every other combination reaches
the driver (exactly one open call), whatever the driver then answers. -/
theorem open_validation :
    ∀ (o : OpenOptions) (f_open : Nat → Nat),
      (illegalOptions o = true →
        copen o f_open = (.error ⟨.invalidInput, "os error"⟩, 0)) ∧
      (illegalOptions o = false → (copen o f_open).2 = 1) := by
  intro o fo
  rcases o with ⟨r, w, a, t, c, cn⟩
  constructor <;>
    · intro h
      cases r <;> cases w <;> cases a <;> cases t <;> cases c <;> cases cn <;>
        first
          | rfl
          | exact Bool.noConfusion h

/-- Claim C1 witness: a concrete illegal combination (truncate without
write or append) fails with InvalidInput and zero driver calls, and a
concrete legal one (read+write) reaches the driver. -/
theorem open_validation_witness :
    illegalOptions ⟨false, false, false, true, false, false⟩ = true ∧
      copen ⟨false, false, false, true, false, false⟩ (fun _ => 0) =
        (.error ⟨.invalidInput, "os error"⟩, 0) ∧
      illegalOptions ⟨true, true, false, false, false, false⟩ = false ∧
      (copen ⟨true, true, false, false, false, false⟩ (fun _ => 0)).2 = 1 :=
  ⟨by decide,
   (open_validation ⟨false, false, false, true, false, false⟩ (fun _ => 0)).1 (by decide),
   by decide,
   (open_validation ⟨true, true, false, false, false, false⟩ (fun _ => 0)).2 (by decide)⟩

/-- Claim C6: an end-relative (resp. current-relative) seek whose
negative offset exceeds the current size (resp. position) fails with the
invalid-seek error and the position is never clamped or wrapped; an
offset within range yields exactly size-plus-offset (resp.
position-plus-offset), a nonnegative absolute position. -/
theorem seek_relative_spec :
    ∀ (size current : Nat) (p : Int) (f_lseek : Nat), p ≤ 0 →
      ((size < p.natAbs →
          File.seek (.fromEnd p) size current f_lseek =
            .error ⟨.other, "Cannot seek beyond start of file"⟩) ∧
       (p.natAbs ≤ size → f_lseek = 0 →
          File.seek (.fromEnd p) size current f_lseek = .ok (size - p.natAbs) ∧
            ((size - p.natAbs : Nat) : Int) = (size : Int) + p) ∧
       (current < p.natAbs →
          File.seek (.current p) size current f_lseek =
            .error ⟨.other, "Cannot seek beyond start of file"⟩) ∧
       (p.natAbs ≤ current → f_lseek = 0 →
          File.seek (.current p) size current f_lseek = .ok (current - p.natAbs) ∧
            ((current - p.natAbs : Nat) : Int) = (current : Int) + p)) := by
  intro size current p r hp
  have hnp : ¬ (0 < p) := by omega
  refine ⟨?_, ?_, ?_, ?_⟩
  · intro h
    have h2 : ¬ (p.natAbs ≤ size) := by omega
    simp [File.seek, seekPosition, hnp, h2]
  · intro h hr
    subst hr
    constructor
    · simp [File.seek, seekPosition, hnp, h, get_error]
    · omega
  · intro h
    have h2 : ¬ (p.natAbs ≤ current) := by omega
    simp [File.seek, seekPosition, hnp, h2]
  · intro h hr
    subst hr
    constructor
    · simp [File.seek, seekPosition, hnp, h, get_error]
    · omega

/-- Claim C6 witness: with size 10, position 3 and offset `-4`, the
end-relative seek lands at 6 and the current-relative seek fails. -/
theorem seek_relative_spec_witness :
    File.seek (.fromEnd (-4)) 10 3 0 = .ok 6 ∧
      File.seek (.current (-4)) 10 3 0 =
        .error ⟨.other, "Cannot seek beyond start of file"⟩ :=
  ⟨((seek_relative_spec 10 3 (-4) 0 (by decide)).2.1 (by decide) rfl).1,
   (seek_relative_spec 10 3 (-4) 0 (by decide)).2.2.1 (by decide)⟩

/-- Invariant of the shared-handle lifetime model: starting from a
positive live count, a well-formed trace leaves the reference count at
(initial + dups − drops), issues the single close call exactly when the
last reference is dropped, and `duplicate` never contributes a driver
call. -/
theorem runHandleOps_spec :
    ∀ (ops : List HandleOp) (r c d : Nat), 0 < r → okTrace r ops = true →
      (runHandleOps ⟨r, c, d⟩ ops).refcount = r + countDups ops - countDrops ops ∧
        (runHandleOps ⟨r, c, d⟩ ops).closeCalls =
          c + (if r + countDups ops = countDrops ops then 1 else 0) ∧
        (runHandleOps ⟨r, c, d⟩ ops).dupDriverCalls = d := by
  intro ops
  induction ops with
  | nil =>
      intro r c d hr _
      refine ⟨by simp [runHandleOps, countDups, countDrops], ?_, rfl⟩
      simp only [runHandleOps, countDups, countDrops]
      rw [if_neg (by omega)]
      omega
  | cons op rest ih =>
      intro r c d hr hok
      match r, hr with
      | r' + 1, _ =>
        cases op with
        | dup =>
            have hok' : okTrace (r' + 1 + 1) rest = true := hok
            have H := ih (r' + 1 + 1) c (d + 0) (by omega) hok'
            simp only [runHandleOps, handleStep, countDups, countDrops]
            refine ⟨?_, ?_, ?_⟩
            · rw [H.1]; omega
            · rw [H.2.1]
              split_ifs <;> omega
            · rw [H.2.2]
              omega
        | drop =>
            have hok' : okTrace r' rest = true := hok
            rcases Nat.eq_zero_or_pos r' with h0 | hpos
            · subst h0
              have hrest : rest = [] := by
                cases rest with
                | nil => rfl
                | cons x xs => exact absurd hok' (by simp [okTrace])
              subst hrest
              simp [runHandleOps, handleStep, countDups, countDrops]
            · have H := ih (r' + 1 - 1) c d (by omega) hok'
              simp only [runHandleOps, handleStep, countDups, countDrops]
              rw [if_neg (by omega : ¬ (r' + 1 = 1))]
              refine ⟨?_, ?_, ?_⟩
              · rw [H.1]; omega
              · rw [H.2.1]
                split_ifs <;> omega
              · rw [H.2.2]

/-- Claim C4: duplicating a logical file issues no driver call, and the
driver close call is issued exactly once per underlying open-file record
— precisely when the trace drops the last sharing reference — never once
per duplicate. -/
theorem handle_close_once :
    ∀ ops : List HandleOp, okTrace 1 ops = true →
      (runHandleOps openedHandle ops).dupDriverCalls = 0 ∧
        (runHandleOps openedHandle ops).closeCalls =
          (if countDrops ops = countDups ops + 1 then 1 else 0) := by
  intro ops hok
  have h := runHandleOps_spec ops 1 0 0 (by omega) hok
  rw [show openedHandle = ⟨1, 0, 0⟩ from rfl]
  refine ⟨h.2.2, ?_⟩
  rw [h.2.1]
  split_ifs <;> omega

/-- Claim C4 witness: two duplicates then three drops — after the last
drop the close call has been issued exactly once, and no driver call was
issued by the duplicates. -/
theorem handle_close_once_witness :
    okTrace 1 [.dup, .dup, .drop, .drop, .drop] = true ∧
      (runHandleOps openedHandle [.dup, .dup, .drop, .drop, .drop]).dupDriverCalls = 0 ∧
      (runHandleOps openedHandle [.dup, .dup, .drop, .drop, .drop]).closeCalls = 1 :=
  ⟨by decide,
   (handle_close_once [.dup, .dup, .drop, .drop, .drop] (by decide)).1,
   ((handle_close_once [.dup, .dup, .drop, .drop, .drop] (by decide)).2).trans (by decide)⟩

/-- Every driver delete call issued while processing the entries of the
directory at `p` targets a strict extension of `p`, never `p` itself. -/
theorem removeEntries_trace_extends (del : FsPath → Except Error Unit) :
    ∀ (p : FsPath) (es : List FsEntry) (q : FsPath),
      q ∈ (removeEntries del p es).2 → ∃ l, l ≠ [] ∧ q = p ++ l := by
  intro p es
  induction p, es using removeEntries.induct del with
  | case1 p =>
      intro q hq
      simp [removeEntries] at hq
  | case2 p n rest e hdel =>
      intro q hq
      simp [removeEntries, hdel] at hq
      exact ⟨[n], by simp, hq⟩
  | case3 p n rest a hdel r tr hrec ih =>
      intro q hq
      rw [show removeEntries del p (FsEntry.file n :: rest) = (r, (p ++ [n]) :: tr) from by
        simp [removeEntries, hdel, hrec]] at hq
      rcases List.mem_cons.mp hq with h | h
      · exact ⟨[n], by simp, h⟩
      · exact ih q (by rw [hrec]; exact h)
  | case4 p n sub rest e tr hrec ih =>
      intro q hq
      rw [show removeEntries del p (FsEntry.dir n sub :: rest) = (.error e, tr) from by
        simp [removeEntries, hrec]] at hq
      obtain ⟨l, hl, rfl⟩ := ih q (by rw [hrec]; exact hq)
      exact ⟨[n] ++ l, by simp, by simp⟩
  | case5 p n sub rest a tr hrec e hdel ih =>
      intro q hq
      rw [show removeEntries del p (FsEntry.dir n sub :: rest) = (.error e, tr ++ [p ++ [n]]) from by
        simp [removeEntries, hrec, hdel]] at hq
      rcases List.mem_append.mp hq with h | h
      · obtain ⟨l, hl, rfl⟩ := ih q (by rw [hrec]; exact h)
        exact ⟨[n] ++ l, by simp, by simp⟩
      · exact ⟨[n], by simp, by simpa using h⟩
  | case6 p n sub rest a tr hrec a2 hdel r2 tr2 hrec2 ih1 ih2 =>
      intro q hq
      rw [show removeEntries del p (FsEntry.dir n sub :: rest) = (r2, (tr ++ [p ++ [n]]) ++ tr2) from by
        simp [removeEntries, hrec, hdel, hrec2]] at hq
      rcases List.mem_append.mp hq with h | h
      · rcases List.mem_append.mp h with h' | h'
        · obtain ⟨l, hl, rfl⟩ := ih1 q (by rw [hrec]; exact h')
          exact ⟨[n] ++ l, by simp, by simp⟩
        · exact ⟨[n], by simp, by simpa using h'⟩
      · exact ih2 q (by rw [hrec2]; exact h)

/-- Claim C8: `remove_tree` deletes the root directory only after the
enumeration loop over its entries completes — on success the trace of
driver delete calls ends with the root, and a failing nested deletion
propagates its error with the root's delete call never issued. -/
theorem remove_tree_root_last :
    ∀ (del : FsPath → Except Error Unit) (p : FsPath) (es : List FsEntry),
      (∀ e tr, removeEntries del p es = (.error e, tr) →
        remove_dir_all del p es = (.error e, tr) ∧ p ∉ tr) ∧
      (∀ tr, remove_dir_all del p es = (.ok (), tr) →
        ∃ tr0, tr = tr0 ++ [p] ∧ removeEntries del p es = (.ok (), tr0) ∧ p ∉ tr0) := by
  intro del p es
  have not_mem : ∀ tr0, (removeEntries del p es).2 = tr0 → p ∉ tr0 := by
    rintro tr0 rfl hmem
    obtain ⟨l, hl, he⟩ := removeEntries_trace_extends del p es p hmem
    have hlen := congrArg List.length he
    simp [List.length_append] at hlen
    exact hl hlen
  constructor
  · intro e tr h
    exact ⟨by simp [remove_dir_all, h], not_mem tr (by rw [h])⟩
  · intro tr h
    rcases hre : removeEntries del p es with ⟨r0, tr0⟩
    cases r0 with
    | error e =>
        rw [show remove_dir_all del p es = (.error e, tr0) from by
          simp [remove_dir_all, hre]] at h
        exact absurd h (by simp)
    | ok u =>
        cases u
        cases hdel : del p with
        | error e =>
            rw [show remove_dir_all del p es = (.error e, tr0 ++ [p]) from by
              simp [remove_dir_all, hre, hdel]] at h
            exact absurd h (by simp)
        | ok u2 =>
            cases u2
            rw [show remove_dir_all del p es = (.ok (), tr0 ++ [p]) from by
              simp [remove_dir_all, hre, hdel]] at h
            have htr : tr = tr0 ++ [p] := by
              have := congrArg Prod.snd h
              simpa using this.symm
            exact ⟨tr0, htr, rfl, not_mem tr0 (by rw [hre])⟩

/-- Claim C8 witness: deleting directory `d` containing files `x` and
`y` where the driver refuses to delete `d/x` — the error propagates and
the root `d` is never deleted; with a driver that always succeeds, the
trace deletes `d/x`, `d/y` and then the root last. -/
theorem remove_tree_root_last_witness :
    (remove_dir_all
        (fun q => if q = ["d", "x"] then .error ⟨.other, "boom"⟩ else .ok ())
        ["d"] [.file "x", .file "y"] =
      (.error ⟨.other, "boom"⟩, [["d", "x"]]) ∧
      ["d"] ∉ [[("d" : String), "x"]]) ∧
      (∃ tr0, [["d", "x"], ["d", "y"], ["d"]] = tr0 ++ [["d"]] ∧
        removeEntries (fun _ => .ok ()) ["d"] [.file "x", .file "y"] =
          (.ok (), tr0) ∧
        ["d"] ∉ tr0) := by
  constructor
  · exact (remove_tree_root_last
      (fun q => if q = ["d", "x"] then .error ⟨.other, "boom"⟩ else .ok ())
      ["d"] [.file "x", .file "y"]).1 ⟨.other, "boom"⟩ [["d", "x"]]
      (by simp [removeEntries])
  · exact (remove_tree_root_last (fun _ => .ok ()) ["d"] [.file "x", .file "y"]).2
      [["d", "x"], ["d", "y"], ["d"]]
      (by simp [remove_dir_all, removeEntries])

/-- For well-formed durations the lexicographic order agrees with the
total-nanosecond order. -/
theorem durLt_iff (a b : Duration) (ha : a.nanos < 1000000000)
    (hb : b.nanos < 1000000000) :
    durLt a b = true ↔ a.toNanos < b.toNanos := by
  rcases a with ⟨as, an⟩
  rcases b with ⟨bs, bn⟩
  simp only [durLt, Duration.toNanos, Bool.or_eq_true, Bool.and_eq_true,
    decide_eq_true_eq] at *
  constructor
  · intro h
    rcases h with h | ⟨h1, h2⟩ <;> nlinarith
  · intro h
    by_cases hs : as < bs
    · exact Or.inl hs
    · refine Or.inr ⟨?_, ?_⟩ <;> nlinarith

/-- Claim C2: refuted as frozen. With a requested duration of 2000 years
and a monotonic elapsed time of 40 000 000 000 s (more than the 1000-year
ceiling but strictly less than the request), the call reports timed out
(`false`) although the elapsed time IS less than the requested duration —
the comparison uses the clamped duration, not the requested one. -/
theorem wait_timeout_counterexample :
    (wait_timeout ⟨63072000000, 0⟩ ⟨0, 0⟩ ⟨0, ⟨40000000000, 0⟩⟩).2 = false ∧
      durLt ⟨40000000000, 0⟩ ⟨63072000000, 0⟩ = true := by
  constructor
  · rfl
  · rfl

/-- Claim C2 (amended): `wait_timeout` reports timed out (returns
`false`) if and only if the monotonic elapsed time is not less than the
requested duration clamped to the 1000-year ceiling, regardless of the
underlying primitive's own result code; a requested duration of 0
returns `false` whatever happened. -/
theorem wait_timeout_monotonic :
    ∀ (dur : Duration) (sys : Timeval) (w : WaitOutcome),
      dur.nanos < 1000000000 → w.stableElapsed.nanos < 1000000000 →
      (((wait_timeout dur sys w).2 = false ↔
          (clampDur dur).toNanos ≤ w.stableElapsed.toNanos) ∧
        (∀ w' : WaitOutcome, w'.stableElapsed = w.stableElapsed →
          (wait_timeout dur sys w').2 = (wait_timeout dur sys w).2) ∧
        (dur = ⟨0, 0⟩ → (wait_timeout dur sys w).2 = false)) := by
  intro dur sys w hd hw
  have hcn : (clampDur dur).nanos < 1000000000 := by
    unfold clampDur
    split <;> simp [max_dur, hd]
  refine ⟨?_, ?_, ?_⟩
  · show (durLt w.stableElapsed (clampDur dur) = false) ↔ _
    rw [← Bool.not_eq_true, durLt_iff _ _ hw hcn]
    omega
  · intro w' he
    show durLt w'.stableElapsed (clampDur dur) = durLt w.stableElapsed (clampDur dur)
    rw [he]
  · rintro rfl
    show durLt w.stableElapsed (clampDur ⟨0, 0⟩) = false
    have : clampDur ⟨0, 0⟩ = ⟨0, 0⟩ := rfl
    rw [this]
    simp [durLt]

/-- Claim C2 witness: a zero requested duration with a signalled wake
(result code 0, elapsed 0) still reports timed out, and the iff holds
there. -/
theorem wait_timeout_monotonic_witness :
    (0 : Nat) < 1000000000 ∧
      (wait_timeout ⟨0, 0⟩ ⟨5, 0⟩ ⟨0, ⟨0, 0⟩⟩).2 = false :=
  ⟨by decide,
   (wait_timeout_monotonic ⟨0, 0⟩ ⟨5, 0⟩ ⟨0, ⟨0, 0⟩⟩ (by decide) (by decide)).2.2 rfl⟩

/-- Claim C7: a requested duration above the 1000-year ceiling is
clamped down to the ceiling before use; the absolute deadline is the one
wall-clock read plus the clamped duration, with nanosecond carry into
the seconds field, whenever that sum is representable; and on any
overflow of the seconds field the deadline saturates to the maximum
representable timespec instead of wrapping. -/
theorem wait_deadline_spec :
    ∀ (dur : Duration) (sys : Timeval) (w : WaitOutcome),
      dur.nanos < 1000000000 →
      0 ≤ sys.tv_usec → sys.tv_usec < 1000000 →
      -(2 ^ 63) ≤ sys.tv_sec → sys.tv_sec ≤ 2 ^ 63 - 1 →
      ((durLt max_dur dur = true → clampDur dur = max_dur) ∧
        (durLt max_dur dur = false → clampDur dur = dur) ∧
        (sys.tv_sec + (((clampDur dur).nanos : Int) + sys.tv_usec * 1000) / 1000000000
              + ((clampDur dur).secs : Int) ≤ time_t_MAX →
          ((wait_timeout dur sys w).1.tv_sec * 1000000000 + (wait_timeout dur sys w).1.tv_nsec =
              sys.tv_sec * 1000000000 + sys.tv_usec * 1000 + ((clampDur dur).toNanos : Int)) ∧
            0 ≤ (wait_timeout dur sys w).1.tv_nsec ∧
            (wait_timeout dur sys w).1.tv_nsec < 1000000000) ∧
        (time_t_MAX < sys.tv_sec + (((clampDur dur).nanos : Int) + sys.tv_usec * 1000) / 1000000000
              + ((clampDur dur).secs : Int) →
          (wait_timeout dur sys w).1 = TIMESPEC_MAX)) := by
  intro dur sys w hdn hu0 hu1 hs0 hs1
  have hcn : (clampDur dur).nanos < 1000000000 := by
    unfold clampDur
    split <;> simp [max_dur, hdn]
  have hcs : (clampDur dur).secs ≤ 31536000000 := by
    rcases dur with ⟨ds, dn⟩
    unfold clampDur
    split <;> rename_i h
    · simp [max_dur]
    · simp only [durLt, max_dur, Bool.or_eq_true, Bool.and_eq_true,
        decide_eq_true_eq] at h
      push_neg at h
      have h1 := h.1
      show ds ≤ 31536000000
      omega
  refine ⟨fun h => by simp [clampDur, h], fun h => by simp [clampDur, h], ?_, ?_⟩
  · intro hle
    show (computeTimeout (clampDur dur) sys).tv_sec * 1000000000 +
          (computeTimeout (clampDur dur) sys).tv_nsec =
        sys.tv_sec * 1000000000 + sys.tv_usec * 1000 + ((clampDur dur).toNanos : Int) ∧
      0 ≤ (computeTimeout (clampDur dur) sys).tv_nsec ∧
      (computeTimeout (clampDur dur) sys).tv_nsec < 1000000000
    generalize hg : clampDur dur = d at *
    have hsat : saturating_cast_to_time_t d.secs = (d.secs : Int) := by
      unfold saturating_cast_to_time_t time_t_MAX
      rw [if_neg]
      omega
    have hc1 : -(2 ^ 63) ≤ sys.tv_sec + ((d.nanos : Int) + sys.tv_usec * 1000) / 1000000000 ∧
        sys.tv_sec + ((d.nanos : Int) + sys.tv_usec * 1000) / 1000000000 ≤ 2 ^ 63 - 1 := by
      unfold time_t_MAX at hle
      constructor <;> omega
    have hc2 : -(2 ^ 63) ≤ sys.tv_sec + ((d.nanos : Int) + sys.tv_usec * 1000) / 1000000000
          + (d.secs : Int) ∧
        sys.tv_sec + ((d.nanos : Int) + sys.tv_usec * 1000) / 1000000000 + (d.secs : Int)
          ≤ 2 ^ 63 - 1 := by
      unfold time_t_MAX at hle
      constructor <;> omega
    have heq : computeTimeout d sys =
        ⟨sys.tv_sec + ((d.nanos : Int) + sys.tv_usec * 1000) / 1000000000 + (d.secs : Int),
         ((d.nanos : Int) + sys.tv_usec * 1000) % 1000000000⟩ := by
      simp only [computeTimeout, checkedAddI64, hsat]
      rw [if_pos hc1, Option.some_bind, if_pos hc2]
    rw [heq]
    refine ⟨?_, ?_, ?_⟩
    · show (sys.tv_sec + ((d.nanos : Int) + sys.tv_usec * 1000) / 1000000000 + (d.secs : Int)) *
          1000000000 + ((d.nanos : Int) + sys.tv_usec * 1000) % 1000000000 =
          sys.tv_sec * 1000000000 + sys.tv_usec * 1000 + (d.toNanos : Int)
      unfold Duration.toNanos
      push_cast
      omega
    · show (0 : Int) ≤ ((d.nanos : Int) + sys.tv_usec * 1000) % 1000000000
      omega
    · show ((d.nanos : Int) + sys.tv_usec * 1000) % 1000000000 < 1000000000
      omega
  · intro hgt
    show computeTimeout (clampDur dur) sys = TIMESPEC_MAX
    generalize hg : clampDur dur = d at *
    have hsat : saturating_cast_to_time_t d.secs = (d.secs : Int) := by
      unfold saturating_cast_to_time_t time_t_MAX
      rw [if_neg]
      omega
    unfold time_t_MAX at hgt
    by_cases hc1 : -(2 ^ 63) ≤ sys.tv_sec + ((d.nanos : Int) + sys.tv_usec * 1000) / 1000000000 ∧
        sys.tv_sec + ((d.nanos : Int) + sys.tv_usec * 1000) / 1000000000 ≤ 2 ^ 63 - 1
    · have hc2 : ¬ (-(2 ^ 63) ≤ sys.tv_sec + ((d.nanos : Int) + sys.tv_usec * 1000) / 1000000000
            + (d.secs : Int) ∧
          sys.tv_sec + ((d.nanos : Int) + sys.tv_usec * 1000) / 1000000000 + (d.secs : Int)
            ≤ 2 ^ 63 - 1) := by
        push_neg
        intro _
        omega
      simp only [computeTimeout, checkedAddI64, hsat]
      rw [if_pos hc1, Option.some_bind, if_neg hc2]
    · simp only [computeTimeout, checkedAddI64, hsat]
      rw [if_neg hc1, Option.none_bind]

/-- Claim C7 witness: at the far edge of the clock (`tv_sec` at the
maximum of `time_t`) even a one-second duration overflows the seconds
field, and the deadline saturates to `TIMESPEC_MAX`. -/
theorem wait_deadline_spec_witness :
    (wait_timeout ⟨1, 0⟩ ⟨2 ^ 63 - 1, 0⟩ ⟨0, ⟨0, 0⟩⟩).1 = TIMESPEC_MAX :=
  (wait_deadline_spec ⟨1, 0⟩ ⟨2 ^ 63 - 1, 0⟩ ⟨0, ⟨0, 0⟩⟩ (by decide) (by decide)
      (by decide) (by decide) (by decide)).2.2.2 (by decide)

end Stardust
